import Mathlib

/-!
Verification of the GeoIPS procflow core (`single_source.py`, `config_based.py`,
`duplicate_files.py`) against its natural-language specification.

The development is a shallow embedding of the claim-relevant code paths:
Python dictionaries become association lists (`List (String × _)`) preserving
Python's insertion-order semantics, datetimes become integer second counts
(`timedelta(hours=h)` is `h * 3600`), coverage percentages become rationals,
and Python runtime failures (`ValueError`, `TypeError`, `UnboundLocalError`)
become an explicit error type threaded through `Except`.

External plugin collaborators (readers, renderers, interpolators,
filename-format hooks, `filter_area_defs_actual_time`) are universally
quantified function parameters: the theorems hold for every plugin behavior.
-/

namespace GeoipsProcflow

/-- Python runtime failures surfaced by the embedded code paths. -/
inductive PyError where
  | valueError (msg : String)
  | typeError (msg : String)
  | unboundLocal (var : String)
deriving Repr, DecidableEq

/-! ## Coverage gating (single_source.py lines 1478-1500, config_based.py lines 1459-1479)

Both orchestrators run the identical sequence:
```
minimum_coverage = 10
if hasattr(alg_xarray, "minimum_coverage"):
    minimum_coverage = alg_xarray.minimum_coverage
if command_line_minimum_coverage is not None:   # resp. config_minimum_coverage
    minimum_coverage = command_line_minimum_coverage
...
if covg < minimum_coverage and fname_covg < minimum_coverage:
    ... SKIPPING ... continue
```
`hasattr(alg_xarray, "minimum_coverage")` is modelled as an `Option ℚ`
attribute, the command-line/config override likewise. -/

/-- The effective minimum coverage computed by `single_source` (lines 1478-1485):
start from the default 10, overwrite with the dataset's `minimum_coverage`
attribute when present, then overwrite with the command-line value when not
None. -/
def single_source_minimum_coverage (alg_xarray_minimum_coverage : Option ℚ)
    (command_line_minimum_coverage : Option ℚ) : ℚ :=
  let minimum_coverage : ℚ := 10
  let minimum_coverage : ℚ :=
    match alg_xarray_minimum_coverage with
    | some attr_value => attr_value
    | none => minimum_coverage
  match command_line_minimum_coverage with
  | some cmdline_value => cmdline_value
  | none => minimum_coverage

/-- The skip test of `single_source` (line 1492): a built product is skipped
when BOTH the image-production coverage and the filename coverage are strictly
below the effective minimum. -/
def single_source_skips_product (covg fname_covg : ℚ)
    (alg_xarray_minimum_coverage command_line_minimum_coverage : Option ℚ) : Bool :=
  let minimum_coverage :=
    single_source_minimum_coverage alg_xarray_minimum_coverage
      command_line_minimum_coverage
  decide (covg < minimum_coverage) && decide (fname_covg < minimum_coverage)

/-- The identical effective-minimum computation in `config_based`
(lines 1459-1466, with the override read from the output dict / command line
via `get_minimum_coverage`). -/
def config_based_minimum_coverage (alg_xarray_minimum_coverage : Option ℚ)
    (config_minimum_coverage : Option ℚ) : ℚ :=
  single_source_minimum_coverage alg_xarray_minimum_coverage
    config_minimum_coverage

/-- The identical skip test in `config_based` (line 1473). -/
def config_based_skips_product (covg fname_covg : ℚ)
    (alg_xarray_minimum_coverage config_minimum_coverage : Option ℚ) : Bool :=
  single_source_skips_product covg fname_covg alg_xarray_minimum_coverage
    config_minimum_coverage

/-! ## verify_area_def (single_source.py lines 1100-1115)

```
if data_end_datetime - data_start_datetime < timedelta(hours=time_range_hours):
    new_area_defs = filter_area_defs_actual_time(area_defs, data_start_datetime)
LOG.info("Allowed area_defs: %s", [ad.name for ad in new_area_defs])
if check_area_def.name not in [ad.name for ad in new_area_defs]:
    return False
return True
```
When the guard is false, `new_area_defs` is never assigned and the list
comprehension in the `LOG.info` call raises `UnboundLocalError`. Area
definitions are represented by their names; `filter_area_defs_actual_time`
(external, `sector_utils`) is an arbitrary function parameter closing over
`data_start_datetime`. Datetimes are integer seconds. -/
def verify_area_def (filter_area_defs_actual_time : List String → List String)
    (area_def_names : List String) (check_area_def_name : String)
    (data_start_datetime data_end_datetime : Int)
    (time_range_hours : Int := 3) : Except PyError Bool :=
  if data_end_datetime - data_start_datetime < time_range_hours * 3600 then
    let new_area_defs := filter_area_defs_actual_time area_def_names
    if ¬ new_area_defs.contains check_area_def_name then
      .ok false
    else
      .ok true
  else
    .error (.unboundLocal "new_area_defs")

/-! ## pad_area_definition (single_source.py lines 361-411) -/

/-- Geographic area definition: name/id/description, sector-type tag, pixel
grid shape, pixel sizes, projection center, and the free-form numeric
sector-info mapping (storm center `clat`/`clon` for tc sectors). -/
structure AreaDef where
  area_id : String
  name : String
  description : String
  sector_type : String
  x_size : ℕ
  y_size : ℕ
  pixel_size_x : ℚ
  pixel_size_y : ℚ
  proj_lat_0 : ℚ
  proj_lon_0 : ℚ
  sector_info : List (String × ℚ)
deriving Repr, DecidableEq

/-- Python `int()` applied to a rational: truncation toward zero. -/
def pyInt (q : ℚ) : Int :=
  if 0 ≤ q then ⌊q⌋ else ⌈q⌉

/-- Modelled from the spec: `is_sector_type` (from `geoips.sector_utils.utils`,
not under src/) tests the area definition's sector-type tag (glossary: "Sector
type: a tag classifying how an area definition should be treated"). -/
def is_sector_type (area_def : AreaDef) (sector_type : String) : Bool :=
  area_def.sector_type = sector_type

/-- Modelled from the spec: `clat_clon_resolution_shape` (area-def generator,
not under src/) builds a new dynamic area definition from the given id,
description, center latitude/longitude, pixel-grid shape and pixel sizes
(spec 4.5: "compute a new area with x_size * x_scale, y_size * y_scale
pixels"). -/
def clat_clon_resolution_shape (area_id : String) (long_description : String)
    (clat clon : ℚ) (num_lines num_samples : Int)
    (pixel_width pixel_height : ℚ) : AreaDef :=
  { area_id := area_id
    name := area_id
    description := long_description
    sector_type := "dynamic"
    x_size := num_samples.toNat
    y_size := num_lines.toNat
    pixel_size_x := pixel_width
    pixel_size_y := pixel_height
    proj_lat_0 := clat
    proj_lon_0 := clon
    sector_info := [] }

/-- Modelled from the spec: `copy_sector_info` (from
`geoips.sector_utils.utils`, not under src/) copies the source area's
sector-info fields onto the new padded area (spec 4.5: "All other sector-info
fields are copied onto the new padded area"). -/
def copy_sector_info (source_area_def padded_area_def : AreaDef) : AreaDef :=
  { padded_area_def with sector_info := source_area_def.sector_info }

/-- `pad_area_definition` (lines 361-411): tc sectors (or `force_pad`) get a
new area scaled by the x/y scale factors (default 1.5), with the amsu-b / mhs
full-swath special case; the center comes from the storm center for tc
sectors, else from the projection center; everything else is returned
unchanged. Returns `none` when a tc sector's sector-info lacks `clat`/`clon`
(the Python `KeyError` path). -/
def pad_area_definition (area_def : AreaDef) (source_name : Option String := none)
    (force_pad : Bool := false) (x_scale_factor : ℚ := 3 / 2)
    (y_scale_factor : ℚ := 3 / 2) : Option AreaDef :=
  if is_sector_type area_def "tc" || force_pad then
    let num_lines := pyInt ((area_def.y_size : ℚ) * y_scale_factor)
    let num_samples := pyInt ((area_def.x_size : ℚ) * x_scale_factor)
    let dims : Int × Int :=
      if source_name = some "amsu-b" || source_name = some "mhs" then
        (pyInt ((area_def.y_size : ℚ) * 1), pyInt ((area_def.x_size : ℚ) * 5))
      else
        (num_lines, num_samples)
    let center? : Option (ℚ × ℚ) :=
      if is_sector_type area_def "tc" then
        match area_def.sector_info.lookup "clat",
              area_def.sector_info.lookup "clon" with
        | some clat, some clon => some (clat, clon)
        | _, _ => none
      else
        some (area_def.proj_lat_0, area_def.proj_lon_0)
    match center? with
    | none => none
    | some (clat, clon) =>
      some (copy_sector_info area_def
        (clat_clon_resolution_shape area_def.area_id area_def.description
          clat clon dims.1 dims.2 area_def.pixel_size_x area_def.pixel_size_y))
  else
    some area_def

/-! ## remove_duplicates (duplicate_files.py lines 25-71)

`fnames` is a dict of filename -> info dict carrying `filename_format`;
modelled as the ordered list of (filename, filename_format) pairs. The
per-format hook `<filename_format>_remove_duplicates` exists only for some
filename-format modules: `hooks fmt` is `some h` when the module of format
`fmt` defines the hook `h`, which takes the filename and the `remove_files`
flag and returns the (removed, saved) file lists. -/
def remove_duplicates
    (hooks : String → Option (String → Bool → List String × List String))
    (fnames : List (String × String)) (remove_files : Bool := false) :
    List String × List String :=
  fnames.foldl
    (fun acc entry =>
      let filename_format := entry.2
      match hooks filename_format with
      | some fnamer_remove_dups =>
        let curr := fnamer_remove_dups entry.1 remove_files
        (acc.1 ++ curr.1, acc.2 ++ curr.2)
      | none => acc)
    ([], [])

/-! ## Render dispatch (single_source.py lines 63-73, 102-137, 259-345, 472-607)

The output-format plugin is external: `render` is its invocation when the
procflow passes it the pre-computed `output_fnames` list, `renderNoFnames` its
invocation for families that take no filename list. Both return the plugin's
produced file list. -/

/-- An output-format plugin: its declared family and its (arbitrary) rendering
behavior. -/
structure OutputPlugin where
  family : String
  render : List String → List String
  renderNoFnames : List String

/-- Output families that require an input filename list AND require the
returned product list to match what was passed in (lines 65-68). -/
def OUTPUT_FAMILIES_WITH_OUTFNAMES_ARG : List String :=
  ["xrdict_varlist_outfnames_to_outlist",
   "xrdict_area_product_outfnames_to_outlist"]

/-- Output families with no input filename list and no expected output file
list (lines 71-73). -/
def OUTPUT_FAMILIES_WITH_NO_OUTFNAMES_ARG : List String :=
  ["xrdict_area_product_to_outlist"]

/-- Product families servable by `process_xarray_dict_to_output_format`
(lines 85-89). -/
def PRODUCT_FAMILIES_FOR_XARRAY_DICT_TO_OUTPUT_FORMAT : List String :=
  ["sectored_xarray_dict_to_output_format",
   "unsectored_xarray_dict_to_output_format",
   "unsectored_xarray_dict_area_to_output_format"]

/-- `output_all_metadata` (lines 102-137): starting from a copy of the
pre-computed output filenames, generate a metadata sidecar per
(metadata_fname, output_fname) pair via the standard-metadata output plugin
(external: `metadata_output_plugin metadata_fname output_fname` is its
returned list); each call must return exactly `[metadata_fname]` or a
`ValueError` is raised; produced names are merged into the final dict (keyed
insertion, Python dict semantics). Only the filename keys of the dicts are
tracked. -/
def output_all_metadata (metadata_output_family : String)
    (metadata_output_plugin : String → String → List String)
    (output_fnames : List String) (metadata_fnames : List (Option String)) :
    Except PyError (List String) :=
  (metadata_fnames.zip output_fnames).foldlM
    (fun final_outputs pair =>
      match pair.1 with
      | none => Except.ok final_outputs
      | some metadata_fname =>
        if metadata_output_family = "standard_metadata" then
          let curr_outputs := metadata_output_plugin metadata_fname pair.2
          if curr_outputs ≠ [metadata_fname] then
            Except.error (.valueError "Did not produce expected products")
          else
            Except.ok (curr_outputs.foldl
              (fun acc curr_output =>
                if acc.contains curr_output then acc else acc ++ [curr_output])
              final_outputs)
        else
          Except.ok final_outputs)
    output_fnames

/-- `process_xarray_dict_to_output_format` (lines 259-345): after validating
the product family, dispatch on the output plugin's family. The two
outfnames-bearing families pass the pre-computed filename list to the plugin
and raise `ValueError("Did not produce expected products")` when the returned
list differs; `xrdict_area_product_to_outlist` performs no check — but
`final_products` is only assigned for families in
`OUTPUT_FAMILIES_WITH_OUTFNAMES_ARG` (lines 336-343), so the
`return final_products` statement raises `UnboundLocalError` for it. -/
def process_xarray_dict_to_output_format (product_type : String)
    (output_plugin : OutputPlugin)
    (output_fnames : List String) (metadata_fnames : List (Option String))
    (metadata_output_family : String)
    (metadata_output_plugin : String → String → List String) :
    Except PyError (List String) :=
  if ¬ PRODUCT_FAMILIES_FOR_XARRAY_DICT_TO_OUTPUT_FORMAT.contains product_type then
    .error (.typeError "UNSUPPORTED product_type")
  else if output_plugin.family = "xrdict_varlist_outfnames_to_outlist" then
    let curr_products := output_plugin.render output_fnames
    if curr_products ≠ output_fnames then
      .error (.valueError "Did not produce expected products")
    else
      output_all_metadata metadata_output_family metadata_output_plugin
        output_fnames metadata_fnames
  else if output_plugin.family = "xrdict_area_product_outfnames_to_outlist" then
    let curr_products := output_plugin.render output_fnames
    if curr_products ≠ output_fnames then
      .error (.valueError "Did not produce expected products")
    else
      output_all_metadata metadata_output_family metadata_output_plugin
        output_fnames metadata_fnames
  else if output_plugin.family = "xrdict_area_product_to_outlist" then
    -- "No input filename list, no check that output filename list matches":
    -- the plugin is invoked, its result bound to curr_products, and the
    -- function falls through to `return final_products`, which was never
    -- assigned for this family.
    let _curr_products := output_plugin.renderNoFnames
    .error (.unboundLocal "final_products")
  else
    .error (.typeError "UNSUPPORTED output_format")

/-- `plot_data` (lines 472-607): pre-computed filenames are emptied for
`no_output` or the no-outfnames families; the renderer is dispatched per
family, with the five filename-bearing families (`xarray_data`, `image`,
`unprojected`, `image_overlay`, `xrdict_area_product_outfnames_to_outlist`)
raising `ValueError("Did not produce expected products")` on any mismatch
between the returned list and the pre-computed list, and
`xrdict_area_product_to_outlist` checking nothing; the function then returns
`output_all_metadata` applied to the pre-computed names (so the unchecked
renderer result is dropped). -/
def plot_data (output_plugin : OutputPlugin) (no_output : Bool)
    (precomputed_output_fnames : List String)
    (precomputed_metadata_fnames : List (Option String))
    (metadata_output_family : String)
    (metadata_output_plugin : String → String → List String) :
    Except PyError (List String) :=
  let output_fnames :=
    if no_output ||
        OUTPUT_FAMILIES_WITH_NO_OUTFNAMES_ARG.contains output_plugin.family then
      []
    else precomputed_output_fnames
  let metadata_fnames :=
    if no_output ||
        OUTPUT_FAMILIES_WITH_NO_OUTFNAMES_ARG.contains output_plugin.family then
      []
    else precomputed_metadata_fnames
  let check_expected : List String → Except PyError Unit := fun output_products =>
    if output_products ≠ output_fnames then
      .error (.valueError "Did not produce expected products")
    else
      .ok ()
  let dispatched : Except PyError Unit :=
    if output_plugin.family = "xarray_data" then
      check_expected (output_plugin.render output_fnames)
    else if output_plugin.family = "image" then
      check_expected (output_plugin.render output_fnames)
    else if output_plugin.family = "unprojected" then
      check_expected (output_plugin.render output_fnames)
    else if output_plugin.family = "image_overlay" then
      check_expected (output_plugin.render output_fnames)
    else if output_plugin.family = "xrdict_area_product_outfnames_to_outlist" then
      check_expected (output_plugin.render output_fnames)
    else if output_plugin.family = "xrdict_area_product_to_outlist" then
      -- "No input filename list, no check that output filename list matches"
      let _output_products := output_plugin.renderNoFnames
      .ok ()
    else
      .error (.valueError "Unsupported output family")
  match dispatched with
  | .error e => .error e
  | .ok _ =>
    output_all_metadata metadata_output_family metadata_output_plugin
      output_fnames metadata_fnames

/-! ## get_alg_xarray, algorithm-first tail (single_source.py lines 922-937)

```
if product_type == "alg_cmap":
    final_xarray = alg_xarray
elif product_type == "alg_interp_cmap":
    interp_args["varlist"] = [product_name]
    final_xarray = interp_plugin(area_def, alg_xarray, alg_xarray, **interp_args)
if "adjustment_id" in area_def.sector_info:
    final_xarray = add_filename_extra_field(
        alg_xarray, "adjustment_id", area_def.sector_info["adjustment_id"])
return final_xarray
```
Note the adjustment branch passes `alg_xarray` — the raw algorithm result —
to `add_filename_extra_field` and rebinds `final_xarray` to it, discarding
the interpolated dataset for `alg_interp_cmap` products. Datasets are
modelled as a label (distinguishing raw from interpolated content) plus the
`filename_extra_fields` attribute; `interp_plugin` is an arbitrary function
parameter. -/

/-- A dataset as far as this code path observes it: its content (label) and
its `filename_extra_fields` attribute. -/
structure XarrayObj where
  label : String
  filename_extra_fields : List (String × String)
deriving Repr, DecidableEq

/-- `add_filename_extra_field` (lines 218-223): initialize the attribute dict
when absent and set the field (in-place in Python; the mutated object is
returned). -/
def add_filename_extra_field (xarray_obj : XarrayObj) (field_name : String)
    (field_value : String) : XarrayObj :=
  { xarray_obj with
    filename_extra_fields :=
      if xarray_obj.filename_extra_fields.any (fun kv => kv.1 = field_name) then
        xarray_obj.filename_extra_fields.map
          (fun kv => if kv.1 = field_name then (field_name, field_value) else kv)
      else
        xarray_obj.filename_extra_fields ++ [(field_name, field_value)] }

/-- The tail of the algorithm-first branch of `get_alg_xarray`
(lines 922-937), entered with `product_type` in
["alg_cmap", "alg_interp_cmap", "alg"] and the algorithm result
`alg_xarray`. `adjustment_id` is the value of
`area_def.sector_info["adjustment_id"]` when present. For `product_type`
"alg" with no adjustment id, `final_xarray` is unbound at the return
statement. -/
def alg_first_finalize (product_type : String)
    (interp_plugin : XarrayObj → XarrayObj) (adjustment_id : Option String)
    (alg_xarray : XarrayObj) : Except PyError XarrayObj :=
  let final_xarray? : Option XarrayObj :=
    if product_type = "alg_cmap" then
      some alg_xarray
    else if product_type = "alg_interp_cmap" then
      some (interp_plugin alg_xarray)
    else
      none
  match adjustment_id with
  | some adjustment_value =>
    .ok (add_filename_extra_field alg_xarray "adjustment_id" adjustment_value)
  | none =>
    match final_xarray? with
    | some final_xarray => .ok final_xarray
    | none => .error (.unboundLocal "final_xarray")

/-! ## get_alg_xarray, variable resolution and the xarray_to_numpy branch
(single_source.py lines 799-809 and 866-875)

Lines 800-809 resolve `variables` from the `variable_names` parameter when it
is truthy, else from the product metadata (`get_required_variables`). The
`xarray_to_numpy` algorithm-first branch (866-875) then tests
`set(variable_names).issubset(...)` against each dataset — reading the raw
parameter, which raises `TypeError` when it was left as `None`. Datasets are
identified by their dict keys, with `dataset_variables key` giving the
variables of dataset `key`. The function returns the keys of the datasets
whose variables contain all of `variable_names` (the datasets whose algorithm
result would be stored under the product name). -/
def alg_first_xarray_to_numpy_select
    (sect_xarray_keys : List String) (dataset_variables : String → List String)
    (variable_names : Option (List String)) : Except PyError (List String) :=
  sect_xarray_keys.foldlM
    (fun selected dsname =>
      match variable_names with
      | none =>
        Except.error (.typeError "argument of type NoneType is not iterable")
      | some names =>
        if names.all (fun v => (dataset_variables dsname).contains v) then
          Except.ok (selected ++ [dsname])
        else
          Except.ok selected)
    []

/-- The claim-relevant slice of `get_alg_xarray` for algorithm-first products
with algorithm family `xarray_to_numpy`: resolve `variables` per lines
800-809, then run the candidate-dataset selection of lines 866-875 (which
reads `variable_names`, not `variables`). Returns the resolved variable list
together with the selection outcome. -/
def get_alg_xarray_xarray_to_numpy (required_variables : List String)
    (variable_names : Option (List String))
    (sect_xarray_keys : List String)
    (dataset_variables : String → List String) :
    List String × Except PyError (List String) :=
  let resolved_variables :=
    match variable_names with
    | none => required_variables
    | some [] => required_variables
    | some names => names
  (resolved_variables,
   alg_first_xarray_to_numpy_select sect_xarray_keys dataset_variables
     variable_names)

/-! ## update_output_dict_from_command_line_args (config_based.py lines 53-129)

Python dictionaries are association lists with insertion-order semantics:
`dinsert` replaces the value in place when the key exists, else appends.
Aliasing matters here: `final_output_dict = output_dict.copy()` is a SHALLOW
copy, so `final_output_dict[fld]` and `output_dict[fld]` are the same nested
dict object whenever `fld` was already present; nested item assignments
therefore mutate the caller's original `output_dict` too. The embedding
returns the pair (final_output_dict, output_dict-after-the-call), applying
nested mutations to both components and top-level assignments to the first
only. -/

/-- A kwargs mapping (e.g. the value of `filename_format_kwargs`). -/
abbrev Kwargs := List (String × String)

/-- An output-spec field such as `filename_formats_kwargs`: a mapping from
sub-key (the reserved "all", or a specific filename format) to kwargs. -/
abbrev FieldVal := List (String × Kwargs)

/-- The output spec restricted to the fields this function manipulates. -/
abbrev OutputSpecDict := List (String × FieldVal)

/-- Python dict item assignment `d[k] = v`: replace the (unique) existing
entry in place when `k` is present, else append at the end. -/
def dinsert {α : Type} : List (String × α) → String → α → List (String × α)
  | [], k, v => [(k, v)]
  | kv :: rest, k, v =>
    if kv.1 = k then (k, v) :: rest else kv :: dinsert rest k v

/-- Python `k in d`. -/
def dcontains {α : Type} (d : List (String × α)) (k : String) : Bool :=
  d.any (fun kv => kv.1 = k)

/-- One iteration of the field loop of
`update_output_dict_from_command_line_args` (lines 62-127) for a command-line
field that is present and not None, with value `cmdline_value`. Both loop
fields (`filename_format_kwargs`, `metadata_filename_format_kwargs`) are
converted to their plural counterparts wrapped as `{"all": value}`
(lines 77-82; the generic `else` at lines 83-85 is unreachable for this loop).
The state is (final_output_dict, original output_dict); branch conditions
read the original (`output_dict` in the source), writes go to the copy, and
nested item assignments (lines 105 and 116-118) mutate the shared nested
object, hence both components. -/
def update_one_output_field (state : OutputSpecDict × OutputSpecDict)
    (cmdline_fld_name : String) (cmdline_value : Kwargs) :
    OutputSpecDict × OutputSpecDict :=
  let final_output_dict := state.1
  let output_dict := state.2
  let output_fld_name :=
    if cmdline_fld_name = "filename_format_kwargs" then
      "filename_formats_kwargs"
    else
      "metadata_filename_formats_kwargs"
  let output_fld_val : FieldVal := [("all", cmdline_value)]
  if ! dcontains output_dict output_fld_name then
    -- ADDING: command-line field absent from the output dict, added wholesale
    -- to the copy only (top-level assignment, line 95).
    (dinsert final_output_dict output_fld_name output_fld_val, output_dict)
  else if dcontains output_fld_val "all" &&
      ! dcontains ((output_dict.lookup output_fld_name).getD []) "all" then
    -- REPLACING *all*: nested assignment
    -- final_output_dict[fld]["all"] = output_fld_val["all"] (line 105);
    -- the nested dict is shared with the original, so both mutate.
    let set_all : FieldVal → FieldVal := fun fv =>
      dinsert fv "all" ((output_fld_val.lookup "all").getD [])
    (final_output_dict.map
       (fun kv => if kv.1 = output_fld_name then (kv.1, set_all kv.2) else kv),
     output_dict.map
       (fun kv => if kv.1 = output_fld_name then (kv.1, set_all kv.2) else kv))
  else if dcontains output_fld_val "all" then
    -- REPLACING *fields*: merge each command-line sub-key into the existing
    -- "all" mapping (lines 115-118); again a shared nested mutation.
    let merge_all : FieldVal → FieldVal := fun fv =>
      dinsert fv "all"
        (((output_fld_val.lookup "all").getD []).foldl
          (fun acc kwarg => dinsert acc kwarg.1 kwarg.2)
          ((fv.lookup "all").getD []))
    (final_output_dict.map
       (fun kv => if kv.1 = output_fld_name then (kv.1, merge_all kv.2) else kv),
     output_dict.map
       (fun kv => if kv.1 = output_fld_name then (kv.1, merge_all kv.2) else kv))
  else
    -- REPLACING entire field (line 127) — note the source writes the
    -- SINGULAR key `cmdline_fld_name` on the copy; unreachable here because
    -- output_fld_val always carries "all".
    (dinsert final_output_dict cmdline_fld_name output_fld_val, output_dict)

/-- `update_output_dict_from_command_line_args` (lines 53-129): when
`command_line_args` is None the original dict is returned unchanged;
otherwise a shallow copy is merged field by field over the two handled
command-line fields, skipping those absent or None. Returns
(final_output_dict, output_dict after the call). -/
def update_output_dict_from_command_line_args (output_dict : OutputSpecDict)
    (command_line_args : Option (List (String × Option Kwargs))) :
    OutputSpecDict × OutputSpecDict :=
  match command_line_args with
  | none => (output_dict, output_dict)
  | some cmdline_args =>
    ["filename_format_kwargs", "metadata_filename_format_kwargs"].foldl
      (fun state cmdline_fld_name =>
        match cmdline_args.lookup cmdline_fld_name with
        | none => state
        | some none => state
        | some (some cmdline_value) =>
          update_one_output_field state cmdline_fld_name cmdline_value)
      (output_dict, output_dict)

/-! ## Alg-Xarray memoization in config_based (config_based.py lines
1268-1269, 1272-1306, 1345-1427)

Within one (area definition, sector type) iteration the orchestrator creates
fresh caches `pad_alg_xarrays` and `alg_xarrays` (lines 1268-1269), then
iterates the required output types and their products. The claim-relevant
state is the two cache key sets plus the ordered log of `get_alg_xarray`
invocations. Skip conditions preceding the builder are modelled as
predicates: `produce_time_ok` per output (`produce_current_time`,
lines 1273-1280), `has_required_vars` per product (variables surviving
sectoring, lines 1345-1356), `sectored_output` per product
(`process_sectored_data_output` returning products, lines 1366-1390). -/

/-- One requested output type: its requested sector type, its
`produce_current_time` outcome, its output plugin family, and its product
list. -/
structure OutputSpec where
  requested_sector_type : String
  produce_time_ok : Bool
  output_family : String
  product_names : List String
deriving Repr, DecidableEq

/-- The per-sector-type processing state: the two memoization caches (key
sets, in insertion order) and the builder invocation log. -/
structure AlgCacheState where
  pad_alg_xarrays : List String
  alg_xarrays : List String
  builder_calls : List String
deriving Repr, DecidableEq

/-- `get_required_outputs` (lines 132-141): the outputs requesting the given
sector type, in config order. -/
def get_required_outputs (outputs : List OutputSpec) (sector_type : String) :
    List OutputSpec :=
  outputs.filter (fun o => o.requested_sector_type = sector_type)

/-- The body of the product loop (lines 1305-1427) restricted to builder
invocation and cache updates. `reader_or_self` is
`area_def.sector_type in ["reader_defined", "self_register"]`. Branch order
follows lines 1395-1427: `xarray_data` outputs are memoized in
`pad_alg_xarrays`; otherwise reader_defined/self_register sector types call
the builder unconditionally; otherwise the `alg_xarrays` cache is used. -/
def config_based_product_step (reader_or_self : Bool)
    (has_required_vars sectored_output : String → Bool)
    (output_family : String) (state : AlgCacheState) (product_name : String) :
    AlgCacheState :=
  if ¬ has_required_vars product_name then
    state
  else if sectored_output product_name then
    state
  else if output_family = "xarray_data" then
    if product_name ∈ state.pad_alg_xarrays then
      state
    else
      { state with
        pad_alg_xarrays := state.pad_alg_xarrays ++ [product_name]
        builder_calls := state.builder_calls ++ [product_name] }
  else if reader_or_self then
    { state with builder_calls := state.builder_calls ++ [product_name] }
  else if product_name ∈ state.alg_xarrays then
    state
  else
    { state with
      alg_xarrays := state.alg_xarrays ++ [product_name]
      builder_calls := state.builder_calls ++ [product_name] }

/-- The body of the output-type loop (lines 1272-1306): skip the output when
`produce_current_time` rejects it, else run the product loop. -/
def config_based_output_step (reader_or_self : Bool)
    (has_required_vars sectored_output : String → Bool)
    (state : AlgCacheState) (output : OutputSpec) : AlgCacheState :=
  if ¬ output.produce_time_ok then
    state
  else
    output.product_names.foldl
      (config_based_product_step reader_or_self has_required_vars
        sectored_output output.output_family)
      state

/-- One (area definition, sector type) iteration of the nested loop: fresh
empty caches (lines 1268-1269), then every required output type in order. -/
def config_based_sector_type_run (reader_or_self : Bool)
    (has_required_vars sectored_output : String → Bool)
    (outputs : List OutputSpec) (sector_type : String) : AlgCacheState :=
  (get_required_outputs outputs sector_type).foldl
    (config_based_output_step reader_or_self has_required_vars sectored_output)
    { pad_alg_xarrays := [], alg_xarrays := [], builder_calls := [] }

/-- The multiset of output families requesting product `p` from a list of
outputs: one entry per occurrence of `p` in the product list of each output
passing `produce_current_time`. -/
def request_families_of (outputs : List OutputSpec) (p : String) :
    List String :=
  (outputs.map
    (fun o =>
      if o.produce_time_ok then
        (o.product_names.filter (fun q => q = p)).map
          (fun _ => o.output_family)
      else
        [])).flatten

/-- The multiset of output families of the eligible requests for product `p`
within one (area, sector-type) iteration. -/
def request_families (outputs : List OutputSpec) (sector_type : String)
    (p : String) : List String :=
  request_families_of (get_required_outputs outputs sector_type) p

/-- How often the code actually invokes `get_alg_xarray` for product `p`
within one (area, sector-type) iteration: zero when the product is skipped
before the builder; else once for all `xarray_data` requests together, plus —
for reader_defined/self_register sector types — once per remaining request,
or — for all other sector types — once for all remaining requests together. -/
def expected_builder_calls (reader_or_self : Bool)
    (has_required_vars sectored_output : String → Bool)
    (outputs : List OutputSpec) (sector_type : String) (p : String) : ℕ :=
  if has_required_vars p ∧ ¬ sectored_output p then
    let fams := request_families outputs sector_type p
    (if "xarray_data" ∈ fams then 1 else 0) +
      (if reader_or_self then
        (fams.filter (fun f => f ≠ "xarray_data")).length
      else if (fams.filter (fun f => f ≠ "xarray_data")).length ≠ 0 then 1
      else 0)
  else
    0

/-! ## Theorems -/

/-- The imperative default/attribute/override sequence computes
`override.getD (attribute.getD 10)`. -/
theorem single_source_minimum_coverage_getD (attr_min override_min : Option ℚ) :
    single_source_minimum_coverage attr_min override_min =
      override_min.getD (attr_min.getD 10) := by
  cases attr_min <;> cases override_min <;> rfl

/-- Claim C2: in both orchestrators a built product is skipped for
insufficient coverage iff BOTH the image-production coverage and the filename
coverage are strictly below the effective minimum coverage, where the
effective minimum is the explicit command-line/config override when present,
else the dataset's `minimum_coverage` attribute when present, else 10; at
exact equality the product is produced. -/
theorem claim_C2_coverage_gating (covg fname_covg : ℚ)
    (attr_min override_min : Option ℚ) :
    (single_source_skips_product covg fname_covg attr_min override_min = true ↔
      covg < override_min.getD (attr_min.getD 10) ∧
      fname_covg < override_min.getD (attr_min.getD 10)) ∧
    config_based_skips_product covg fname_covg attr_min override_min =
      single_source_skips_product covg fname_covg attr_min override_min ∧
    (covg = override_min.getD (attr_min.getD 10) →
      single_source_skips_product covg fname_covg attr_min override_min =
        false) := by
  refine ⟨?_, rfl, ?_⟩
  · simp [single_source_skips_product, single_source_minimum_coverage_getD]
  · intro h
    simp [single_source_skips_product, single_source_minimum_coverage_getD, h]

/-- Witness for C2 at concrete values: with no attribute and no override the
effective minimum is 10, and image coverage exactly 10 is not skipped even
with zero filename coverage. -/
theorem claim_C2_coverage_gating_witness :
    single_source_skips_product 10 0 none none = false :=
  (claim_C2_coverage_gating 10 0 none none).2.2 rfl

/-- Claim C5: `verify_area_def` returns a boolean only when the data time
span is strictly under `time_range_hours`; otherwise `new_area_defs` is never
assigned and the function fails at its use with an `UnboundLocalError`. -/
theorem claim_C5_verify_area_def
    (filter_actual_time : List String → List String)
    (area_def_names : List String) (check_area_def_name : String)
    (data_start data_end time_range_hours : Int) :
    (time_range_hours * 3600 ≤ data_end - data_start →
      verify_area_def filter_actual_time area_def_names check_area_def_name
        data_start data_end time_range_hours =
        .error (.unboundLocal "new_area_defs")) ∧
    (data_end - data_start < time_range_hours * 3600 →
      verify_area_def filter_actual_time area_def_names check_area_def_name
        data_start data_end time_range_hours =
        .ok ((filter_actual_time area_def_names).contains
          check_area_def_name)) := by
  constructor
  · intro h
    simp [verify_area_def, not_lt.mpr h]
  · intro h
    cases hc : (filter_actual_time area_def_names).contains check_area_def_name <;>
      simp [verify_area_def, h, hc] <;> simpa using hc

/-- Witness for C5 at concrete values: with a 3-hour span (not under the
3-hour threshold) the call fails with the unbound-local error; with a
zero-length span it returns a boolean. -/
theorem claim_C5_verify_area_def_witness :
    verify_area_def id ["tc2023wp01"] "tc2023wp01" 0 10800 3 =
      .error (.unboundLocal "new_area_defs") ∧
    verify_area_def id ["tc2023wp01"] "tc2023wp01" 0 0 3 = .ok true :=
  ⟨(claim_C5_verify_area_def id ["tc2023wp01"] "tc2023wp01" 0 10800 3).1
      (by norm_num),
   (claim_C5_verify_area_def id ["tc2023wp01"] "tc2023wp01" 0 0 3).2
      (by norm_num)⟩

/-- Claim C7: for a non-tc area definition with `force_pad` left False,
`pad_area_definition` is the identity (padding is applied only to tc sectors
or when `force_pad` is set). -/
theorem claim_C7_pad_area_definition_identity (area_def : AreaDef)
    (source_name : Option String) (h : area_def.sector_type ≠ "tc") :
    pad_area_definition area_def source_name false (3 / 2) (3 / 2) =
      some area_def := by
  simp [pad_area_definition, is_sector_type, h]

/-- Witness for C7: a concrete static sector passes through unchanged. -/
theorem claim_C7_pad_area_definition_identity_witness :
    pad_area_definition
      { area_id := "goes_east", name := "goes_east",
        description := "GOES East full disk", sector_type := "static",
        x_size := 1000, y_size := 800, pixel_size_x := 1, pixel_size_y := 1,
        proj_lat_0 := 0, proj_lon_0 := -75, sector_info := [] }
      (some "abi") false (3 / 2) (3 / 2) =
      some
        { area_id := "goes_east", name := "goes_east",
          description := "GOES East full disk", sector_type := "static",
          x_size := 1000, y_size := 800, pixel_size_x := 1, pixel_size_y := 1,
          proj_lat_0 := 0, proj_lon_0 := -75, sector_info := [] } :=
  claim_C7_pad_area_definition_identity
    { area_id := "goes_east", name := "goes_east",
      description := "GOES East full disk", sector_type := "static",
      x_size := 1000, y_size := 800, pixel_size_x := 1, pixel_size_y := 1,
      proj_lat_0 := 0, proj_lon_0 := -75, sector_info := [] }
    (some "abi") (by decide)

/-- Claim C8: in the algorithm-first `xarray_to_numpy` branch the
candidate-dataset test reads the raw `variable_names` parameter, so every
call with `variable_names` left as None on a non-empty dataset bundle fails
with a `TypeError` instead of falling back to the variables resolved from
product metadata — even though the resolved variable list (first component)
is available. -/
theorem claim_C8_xarray_to_numpy_requires_variable_names
    (required_variables : List String)
    (dataset_variables : String → List String) (k : String)
    (ks : List String) :
    (get_alg_xarray_xarray_to_numpy required_variables none (k :: ks)
        dataset_variables).1 = required_variables ∧
    (get_alg_xarray_xarray_to_numpy required_variables none (k :: ks)
        dataset_variables).2 =
      .error (.typeError "argument of type NoneType is not iterable") := by
  exact ⟨rfl, rfl⟩

/-- Claim C4 (code bug): for an `alg_interp_cmap` product whose target area
carries an `adjustment_id`, the code returns the NON-interpolated algorithm
dataset (with the adjustment id stamped) because the adjustment branch
rebinds `final_xarray` to `add_filename_extra_field(alg_xarray, ...)`;
without the adjustment id the interpolated dataset is returned as the claim
states, and `alg_cmap` products are unaffected. -/
theorem claim_C4_alg_interp_cmap_adjustment_bug :
    (alg_first_finalize "alg_interp_cmap"
        (fun x => { x with label := x.label ++ "_interpolated" })
        (some "midlatitude1")
        { label := "algout", filename_extra_fields := [] } =
      .ok { label := "algout",
            filename_extra_fields := [("adjustment_id", "midlatitude1")] }) ∧
    (alg_first_finalize "alg_interp_cmap"
        (fun x => { x with label := x.label ++ "_interpolated" })
        none { label := "algout", filename_extra_fields := [] } =
      .ok { label := "algout_interpolated", filename_extra_fields := [] }) ∧
    (alg_first_finalize "alg_cmap"
        (fun x => { x with label := x.label ++ "_interpolated" })
        (some "midlatitude1")
        { label := "algout", filename_extra_fields := [] } =
      .ok { label := "algout",
            filename_extra_fields := [("adjustment_id", "midlatitude1")] }) := by
  exact ⟨rfl, rfl, rfl⟩

/-- Claim C1 (code bug): each filename-bearing output family raises
`ValueError("Did not produce expected products")` when the renderer's list
differs from the pre-computed list (conjuncts 1-7), and an exact match is
accepted with the metadata sidecar merged (conjunct 8) — but for the
no-predeclared-filename family `xrdict_area_product_to_outlist`, instead of
the renderer's return being accepted, `process_xarray_dict_to_output_format`
fails with `UnboundLocalError` on `final_products` (conjunct 9) and
`plot_data` drops the renderer's list, returning the empty pre-computed set
(conjunct 10). -/
theorem claim_C1_renderer_filename_contract :
    (plot_data
        { family := "xarray_data", render := fun _ => ["unexpected.png"],
          renderNoFnames := [] }
        false ["expected.png"] [none] "standard_metadata" (fun m _ => [m]) =
      .error (.valueError "Did not produce expected products")) ∧
    (plot_data
        { family := "image", render := fun _ => ["unexpected.png"],
          renderNoFnames := [] }
        false ["expected.png"] [none] "standard_metadata" (fun m _ => [m]) =
      .error (.valueError "Did not produce expected products")) ∧
    (plot_data
        { family := "unprojected", render := fun _ => ["unexpected.png"],
          renderNoFnames := [] }
        false ["expected.png"] [none] "standard_metadata" (fun m _ => [m]) =
      .error (.valueError "Did not produce expected products")) ∧
    (plot_data
        { family := "image_overlay", render := fun _ => ["unexpected.png"],
          renderNoFnames := [] }
        false ["expected.png"] [none] "standard_metadata" (fun m _ => [m]) =
      .error (.valueError "Did not produce expected products")) ∧
    (plot_data
        { family := "xrdict_area_product_outfnames_to_outlist",
          render := fun _ => ["unexpected.png"], renderNoFnames := [] }
        false ["expected.png"] [none] "standard_metadata" (fun m _ => [m]) =
      .error (.valueError "Did not produce expected products")) ∧
    (process_xarray_dict_to_output_format
        "unsectored_xarray_dict_to_output_format"
        { family := "xrdict_varlist_outfnames_to_outlist",
          render := fun _ => ["unexpected.png"], renderNoFnames := [] }
        ["expected.png"] [none] "standard_metadata" (fun m _ => [m]) =
      .error (.valueError "Did not produce expected products")) ∧
    (process_xarray_dict_to_output_format
        "unsectored_xarray_dict_area_to_output_format"
        { family := "xrdict_area_product_outfnames_to_outlist",
          render := fun _ => ["unexpected.png"], renderNoFnames := [] }
        ["expected.png"] [none] "standard_metadata" (fun m _ => [m]) =
      .error (.valueError "Did not produce expected products")) ∧
    (plot_data
        { family := "image", render := fun output_fnames => output_fnames,
          renderNoFnames := [] }
        false ["expected.png"] [some "expected.yaml"] "standard_metadata"
        (fun m _ => [m]) =
      .ok ["expected.png", "expected.yaml"]) ∧
    (process_xarray_dict_to_output_format
        "sectored_xarray_dict_to_output_format"
        { family := "xrdict_area_product_to_outlist",
          render := fun output_fnames => output_fnames,
          renderNoFnames := ["renderer_made.png"] }
        [] [] "standard_metadata" (fun m _ => [m]) =
      .error (.unboundLocal "final_products")) ∧
    (plot_data
        { family := "xrdict_area_product_to_outlist",
          render := fun output_fnames => output_fnames,
          renderNoFnames := ["renderer_made.png"] }
        false ["ignored.png"] [none] "standard_metadata" (fun m _ => [m]) =
      .ok []) := by
  exact ⟨rfl, rfl, rfl, rfl, rfl, rfl, rfl, rfl, rfl, rfl⟩

/-- The duplicate-removal loop with an arbitrary accumulator: the final
accumulator extends the initial one by the concatenation, in input order, of
the per-format hook results of the entries whose format defines the hook. -/
theorem remove_duplicates_loop_spec
    (hooks : String → Option (String → Bool → List String × List String))
    (remove_files : Bool) :
    ∀ (fnames : List (String × String)) (acc : List String × List String),
      fnames.foldl
        (fun acc entry =>
          let filename_format := entry.2
          match hooks filename_format with
          | some fnamer_remove_dups =>
            let curr := fnamer_remove_dups entry.1 remove_files
            (acc.1 ++ curr.1, acc.2 ++ curr.2)
          | none => acc)
        acc =
      (acc.1 ++
        (fnames.filterMap (fun entry =>
          (hooks entry.2).map (fun h => (h entry.1 remove_files).1))).flatten,
       acc.2 ++
        (fnames.filterMap (fun entry =>
          (hooks entry.2).map (fun h => (h entry.1 remove_files).2))).flatten)
  | [], acc => by simp
  | entry :: rest, acc => by
    simp only [List.foldl_cons, List.filterMap_cons]
    cases hhook : hooks entry.2 with
    | none =>
      simpa [hhook] using remove_duplicates_loop_spec hooks remove_files rest acc
    | some fnamer_remove_dups =>
      simpa [hhook] using
        remove_duplicates_loop_spec hooks remove_files rest
          (acc.1 ++ (fnamer_remove_dups entry.1 remove_files).1,
           acc.2 ++ (fnamer_remove_dups entry.1 remove_files).2)

/-- Claim C10: `remove_duplicates` applies the per-format hook only to
filenames whose format defines it, concatenating the hook results in input
iteration order; an entry whose format lacks the hook contributes to neither
returned list (and, when no hook output mentions it, its filename appears in
neither list); the empty input yields two empty lists. -/
theorem claim_C10_remove_duplicates
    (hooks : String → Option (String → Bool → List String × List String))
    (fnames : List (String × String)) (remove_files : Bool) :
    remove_duplicates hooks fnames remove_files =
      ((fnames.filterMap (fun entry =>
          (hooks entry.2).map (fun h => (h entry.1 remove_files).1))).flatten,
       (fnames.filterMap (fun entry =>
          (hooks entry.2).map (fun h => (h entry.1 remove_files).2))).flatten) ∧
    remove_duplicates hooks ([] : List (String × String)) remove_files =
      ([], []) ∧
    (∀ fname fmt, (fname, fmt) ∈ fnames → hooks fmt = none →
      (∀ entry ∈ fnames, ∀ h, hooks entry.2 = some h →
        fname ∉ (h entry.1 remove_files).1 ∧
        fname ∉ (h entry.1 remove_files).2) →
      fname ∉ (remove_duplicates hooks fnames remove_files).1 ∧
      fname ∉ (remove_duplicates hooks fnames remove_files).2) := by
  have hchar : remove_duplicates hooks fnames remove_files =
      ((fnames.filterMap (fun entry =>
          (hooks entry.2).map (fun h => (h entry.1 remove_files).1))).flatten,
       (fnames.filterMap (fun entry =>
          (hooks entry.2).map (fun h => (h entry.1 remove_files).2))).flatten) := by
    unfold remove_duplicates
    simpa using remove_duplicates_loop_spec hooks remove_files fnames ([], [])
  refine ⟨hchar, rfl, ?_⟩
  intro fname fmt _hmem _hnone hclean
  rw [hchar]
  constructor
  · intro hin
    simp only [List.mem_flatten, List.mem_filterMap] at hin
    obtain ⟨l, ⟨entry, hentry, heq⟩, hfl⟩ := hin
    cases hhook : hooks entry.2 with
    | none => rw [hhook] at heq; simp at heq
    | some h =>
      rw [hhook] at heq
      simp only [Option.map_some', Option.some.injEq] at heq
      exact (hclean entry hentry h hhook).1 (heq ▸ hfl)
  · intro hin
    simp only [List.mem_flatten, List.mem_filterMap] at hin
    obtain ⟨l, ⟨entry, hentry, heq⟩, hfl⟩ := hin
    cases hhook : hooks entry.2 with
    | none => rw [hhook] at heq; simp at heq
    | some h =>
      rw [hhook] at heq
      simp only [Option.map_some', Option.some.injEq] at heq
      exact (hclean entry hentry h hhook).2 (heq ▸ hfl)

/-- Witness for C10: with no hooks defined, an input filename shows up in
neither the removed nor the saved list. -/
theorem claim_C10_remove_duplicates_witness :
    "20230810.120000.G18.abi.png" ∉
      (remove_duplicates (fun _ => none)
        [("20230810.120000.G18.abi.png", "geoips_fname")] true).1 ∧
    "20230810.120000.G18.abi.png" ∉
      (remove_duplicates (fun _ => none)
        [("20230810.120000.G18.abi.png", "geoips_fname")] true).2 :=
  (claim_C10_remove_duplicates (fun _ => none)
      [("20230810.120000.G18.abi.png", "geoips_fname")] true).2.2
    "20230810.120000.G18.abi.png" "geoips_fname" (by simp) rfl
    (by intro entry _ h hh; exact Option.noConfusion hh)

/-- Looking up the just-assigned key yields the assigned value. -/
theorem lookup_dinsert_self {α : Type} (d : List (String × α)) (k : String)
    (v : α) : (dinsert d k v).lookup k = some v := by
  induction d with
  | nil => simp [dinsert, List.lookup]
  | cons kv rest ih =>
    obtain ⟨k1, v1⟩ := kv
    by_cases h : k1 = k
    · subst h; simp [dinsert, List.lookup]
    · have hb : (k == k1) = false := by simp [Ne.symm h]
      simp [dinsert, h, List.lookup, hb, ih]

/-- Assignment to one key leaves lookups of other keys unchanged. -/
theorem lookup_dinsert_ne {α : Type} (d : List (String × α)) (k k' : String)
    (v : α) (h : k' ≠ k) : (dinsert d k v).lookup k' = d.lookup k' := by
  have hb : (k' == k) = false := by simp [h]
  induction d with
  | nil => simp [dinsert, List.lookup, hb]
  | cons kv rest ih =>
    obtain ⟨k1, v1⟩ := kv
    by_cases h1 : k1 = k
    · subst h1; simp [dinsert, List.lookup, hb]
    · by_cases h2 : k' = k1
      · subst h2; simp [dinsert, h1, List.lookup]
      · have hb2 : (k' == k1) = false := by simp [h2]
        simp [dinsert, h1, List.lookup, hb2, ih]

/-- An in-place update of the entry at key `k` maps its looked-up value. -/
theorem lookup_map_update_self {α : Type} (d : List (String × α)) (k : String)
    (f : α → α) :
    (d.map (fun kv => if kv.1 = k then (kv.1, f kv.2) else kv)).lookup k =
      (d.lookup k).map f := by
  induction d with
  | nil => rfl
  | cons kv rest ih =>
    obtain ⟨k1, v1⟩ := kv
    by_cases h : k1 = k
    · subst h
      simp only [List.map_cons, if_pos rfl]
      simp [List.lookup]
    · have hb : (k == k1) = false := by simp [Ne.symm h]
      simp only [List.map_cons, if_neg h]
      simp [List.lookup, hb, ih]

/-- An in-place update of the entry at key `k` leaves other lookups
unchanged. -/
theorem lookup_map_update_ne {α : Type} (d : List (String × α))
    (k k' : String) (f : α → α) (h : k' ≠ k) :
    (d.map (fun kv => if kv.1 = k then (kv.1, f kv.2) else kv)).lookup k' =
      d.lookup k' := by
  induction d with
  | nil => rfl
  | cons kv rest ih =>
    obtain ⟨k1, v1⟩ := kv
    by_cases h1 : k1 = k
    · subst h1
      have hb : (k' == k1) = false := by simp [h]
      simp only [List.map_cons, if_pos rfl]
      simp [List.lookup, hb, ih]
    · by_cases h2 : k' = k1
      · subst h2
        simp only [List.map_cons, if_neg h1]
        simp [List.lookup]
      · have hb2 : (k' == k1) = false := by simp [h2]
        simp only [List.map_cons, if_neg h1]
        simp [List.lookup, hb2, ih]

/-- Python `k in d` agrees with lookup success. -/
theorem dcontains_eq_isSome_lookup {α : Type} (d : List (String × α))
    (k : String) : dcontains d k = (d.lookup k).isSome := by
  induction d with
  | nil => rfl
  | cons kv rest ih =>
    obtain ⟨k1, v1⟩ := kv
    by_cases h : k1 = k
    · subst h; simp [dcontains, List.lookup]
    · have hb : (k == k1) = false := by simp [Ne.symm h]
      simp only [dcontains, List.any_cons, decide_eq_true_eq]
      simp only [h, decide_False, Bool.false_or]
      simp only [List.lookup, hb]
      simpa [dcontains] using ih

/-- Claim C6: the command-line merge policy of
`update_output_dict_from_command_line_args` on the returned dict — (1) a
command-line field absent from the output spec is added wholesale; (2) when
the command-line value carries the reserved sub-key "all" and the output
spec's field lacks "all", the command-line "all" value is installed wholesale
as that field's "all" entry; (3) when both carry "all", the command-line
sub-keys are merged into the existing "all" mapping without replacing it;
(4) the remaining wholesale-replacement branch never fires, since both
handled command-line fields are always wrapped as an "all" mapping — the
singular command-line key is never written into the spec. -/
theorem claim_C6_output_dict_merge_policy (output_dict : OutputSpecDict)
    (cmdline_value : Kwargs) :
    (dcontains output_dict "filename_formats_kwargs" = false →
      (update_output_dict_from_command_line_args output_dict
          (some [("filename_format_kwargs", some cmdline_value)])).1.lookup
          "filename_formats_kwargs" = some [("all", cmdline_value)]) ∧
    (∀ fv, output_dict.lookup "filename_formats_kwargs" = some fv →
      dcontains fv "all" = false →
      (update_output_dict_from_command_line_args output_dict
          (some [("filename_format_kwargs", some cmdline_value)])).1.lookup
          "filename_formats_kwargs" = some (dinsert fv "all" cmdline_value)) ∧
    (∀ fv av, output_dict.lookup "filename_formats_kwargs" = some fv →
      fv.lookup "all" = some av →
      (update_output_dict_from_command_line_args output_dict
          (some [("filename_format_kwargs", some cmdline_value)])).1.lookup
          "filename_formats_kwargs" =
        some (dinsert fv "all"
          (cmdline_value.foldl
            (fun acc kwarg => dinsert acc kwarg.1 kwarg.2) av))) ∧
    ((update_output_dict_from_command_line_args output_dict
        (some [("filename_format_kwargs", some cmdline_value)])).1.lookup
        "filename_format_kwargs" =
      output_dict.lookup "filename_format_kwargs") := by
  have hres : update_output_dict_from_command_line_args output_dict
      (some [("filename_format_kwargs", some cmdline_value)]) =
      update_one_output_field (output_dict, output_dict)
        "filename_format_kwargs" cmdline_value := rfl
  have hlit : dcontains [("all", cmdline_value)] "all" = true := rfl
  have hne : ("filename_format_kwargs" : String) ≠ "filename_formats_kwargs" :=
    by decide
  refine ⟨?_, ?_, ?_, ?_⟩
  · intro h1
    rw [hres]
    simp [update_one_output_field, h1, hlit, lookup_dinsert_self]
  · intro fv hlk hno
    have hdc : dcontains output_dict "filename_formats_kwargs" = true := by
      rw [dcontains_eq_isSome_lookup, hlk]; rfl
    rw [hres]
    simp [update_one_output_field, hdc, hlk, hno, hlit]
    rw [lookup_map_update_self output_dict "filename_formats_kwargs"
      (fun x => dinsert x "all" cmdline_value), hlk]
    rfl
  · intro fv av hlk hall
    have hdc : dcontains output_dict "filename_formats_kwargs" = true := by
      rw [dcontains_eq_isSome_lookup, hlk]; rfl
    have hfa : dcontains fv "all" = true := by
      rw [dcontains_eq_isSome_lookup, hall]; rfl
    rw [hres]
    simp [update_one_output_field, hdc, hlk, hfa, hall, hlit]
    rw [lookup_map_update_self output_dict "filename_formats_kwargs"
      (fun x => dinsert x "all"
        (List.foldl (fun acc kwarg => dinsert acc kwarg.1 kwarg.2)
          ((List.lookup "all" x).getD []) cmdline_value)), hlk]
    simp [hall]
  · rw [hres]
    by_cases hd : dcontains output_dict "filename_formats_kwargs" = true
    · by_cases ha :
        dcontains ((output_dict.lookup "filename_formats_kwargs").getD [])
          "all" = true
      · simp [update_one_output_field, hd, ha, hlit]
        rw [lookup_map_update_ne output_dict "filename_formats_kwargs"
          "filename_format_kwargs"
          (fun x => dinsert x "all"
            (List.foldl (fun acc kwarg => dinsert acc kwarg.1 kwarg.2)
              ((List.lookup "all" x).getD []) cmdline_value)) hne]
      · simp only [Bool.not_eq_true] at ha
        simp [update_one_output_field, hd, ha, hlit]
        rw [lookup_map_update_ne output_dict "filename_formats_kwargs"
          "filename_format_kwargs"
          (fun x => dinsert x "all" cmdline_value) hne]
    · simp only [Bool.not_eq_true] at hd
      simp [update_one_output_field, hd, hlit]
      rw [lookup_dinsert_ne output_dict "filename_formats_kwargs"
        "filename_format_kwargs" [("all", cmdline_value)] hne]

/-- Witness for C6: the three live merge cases at concrete dictionaries. -/
theorem claim_C6_output_dict_merge_policy_witness :
    ((update_output_dict_from_command_line_args []
        (some [("filename_format_kwargs", some [("rotate", "true")])])).1.lookup
        "filename_formats_kwargs" = some [("all", [("rotate", "true")])]) ∧
    ((update_output_dict_from_command_line_args
        [("filename_formats_kwargs", [("geotiff_fname", [("res", "low")])])]
        (some [("filename_format_kwargs", some [("rotate", "true")])])).1.lookup
        "filename_formats_kwargs" =
      some [("geotiff_fname", [("res", "low")]),
            ("all", [("rotate", "true")])]) ∧
    ((update_output_dict_from_command_line_args
        [("filename_formats_kwargs",
          [("all", [("rotate", "false"), ("res", "high")])])]
        (some [("filename_format_kwargs", some [("rotate", "true")])])).1.lookup
        "filename_formats_kwargs" =
      some [("all", [("rotate", "true"), ("res", "high")])]) :=
  ⟨(claim_C6_output_dict_merge_policy [] [("rotate", "true")]).1 rfl,
   (claim_C6_output_dict_merge_policy
       [("filename_formats_kwargs", [("geotiff_fname", [("res", "low")])])]
       [("rotate", "true")]).2.1
     [("geotiff_fname", [("res", "low")])] rfl rfl,
   (claim_C6_output_dict_merge_policy
       [("filename_formats_kwargs",
         [("all", [("rotate", "false"), ("res", "high")])])]
       [("rotate", "true")]).2.2.1
     [("all", [("rotate", "false"), ("res", "high")])]
     [("rotate", "false"), ("res", "high")] rfl rfl⟩

/-- Claim C9: `update_output_dict_from_command_line_args` copies only the
top level — in the branch where both the command line and the output spec
carry "all", the merge writes the command-line sub-keys into the nested
"all" mapping shared with the caller's original `output_dict`, mutating the
input spec in place; only a top-level addition (field absent) leaves the
original untouched. -/
theorem claim_C9_output_dict_shallow_copy_mutation
    (output_dict : OutputSpecDict) (cmdline_value : Kwargs) :
    (∀ fv av, output_dict.lookup "filename_formats_kwargs" = some fv →
      fv.lookup "all" = some av →
      (update_output_dict_from_command_line_args output_dict
          (some [("filename_format_kwargs", some cmdline_value)])).2.lookup
          "filename_formats_kwargs" =
        some (dinsert fv "all"
          (cmdline_value.foldl
            (fun acc kwarg => dinsert acc kwarg.1 kwarg.2) av))) ∧
    (dcontains output_dict "filename_formats_kwargs" = false →
      (update_output_dict_from_command_line_args output_dict
          (some [("filename_format_kwargs", some cmdline_value)])).2 =
        output_dict) := by
  have hres : update_output_dict_from_command_line_args output_dict
      (some [("filename_format_kwargs", some cmdline_value)]) =
      update_one_output_field (output_dict, output_dict)
        "filename_format_kwargs" cmdline_value := rfl
  have hlit : dcontains [("all", cmdline_value)] "all" = true := rfl
  constructor
  · intro fv av hlk hall
    have hdc : dcontains output_dict "filename_formats_kwargs" = true := by
      rw [dcontains_eq_isSome_lookup, hlk]; rfl
    have hfa : dcontains fv "all" = true := by
      rw [dcontains_eq_isSome_lookup, hall]; rfl
    rw [hres]
    simp [update_one_output_field, hdc, hlk, hfa, hall, hlit]
    rw [lookup_map_update_self output_dict "filename_formats_kwargs"
      (fun x => dinsert x "all"
        (List.foldl (fun acc kwarg => dinsert acc kwarg.1 kwarg.2)
          ((List.lookup "all" x).getD []) cmdline_value)), hlk]
    simp [hall]
  · intro h1
    rw [hres]
    simp [update_one_output_field, h1, hlit]

/-- Witness for C9: merging `rotate=true` into an output spec whose
`filename_formats_kwargs` already carries "all" rewrites the caller's
original nested mapping; adding a brand-new field leaves the original
empty spec untouched. -/
theorem claim_C9_output_dict_shallow_copy_mutation_witness :
    ((update_output_dict_from_command_line_args
        [("filename_formats_kwargs", [("all", [("res", "high")])])]
        (some [("filename_format_kwargs", some [("rotate", "true")])])).2.lookup
        "filename_formats_kwargs" =
      some [("all", [("res", "high"), ("rotate", "true")])]) ∧
    ((update_output_dict_from_command_line_args []
        (some [("filename_format_kwargs", some [("rotate", "true")])])).2 =
      []) :=
  ⟨(claim_C9_output_dict_shallow_copy_mutation
       [("filename_formats_kwargs", [("all", [("res", "high")])])]
       [("rotate", "true")]).1
     [("all", [("res", "high")])] [("res", "high")] rfl rfl,
   (claim_C9_output_dict_shallow_copy_mutation [] [("rotate", "true")]).2 rfl⟩

/-- A product-loop step for a different product never changes product `p`'s
builder-call count or cache membership. -/
theorem config_based_product_step_other (ros : Bool) (hv so : String → Bool)
    (fam p q : String) (st : AlgCacheState) (hq : q ≠ p) :
    ((config_based_product_step ros hv so fam st q).builder_calls.count p =
      st.builder_calls.count p) ∧
    ((p ∈ (config_based_product_step ros hv so fam st q).pad_alg_xarrays) ↔
      p ∈ st.pad_alg_xarrays) ∧
    ((p ∈ (config_based_product_step ros hv so fam st q).alg_xarrays) ↔
      p ∈ st.alg_xarrays) := by
  unfold config_based_product_step
  split_ifs <;>
    simp [List.count_append, List.count_singleton', hq, Ne.symm hq]

/-- Product-loop fold: the builder-call count of `p` grows by zero when `p`
is skipped before the builder; else by exactly one fresh `pad_alg_xarrays`
insertion for `xarray_data` outputs, one call per occurrence for
reader_defined/self_register sector types, or one fresh `alg_xarrays`
insertion otherwise; and the caches gain `p` accordingly. -/
theorem config_based_product_fold_stats (ros : Bool) (hv so : String → Bool)
    (fam p : String) :
    ∀ (ps : List String) (st : AlgCacheState),
      ((ps.foldl (config_based_product_step ros hv so fam)
          st).builder_calls.count p =
        st.builder_calls.count p +
          (if hv p = true ∧ so p = false then
            (if fam = "xarray_data" then
              (if p ∈ ps ∧ p ∉ st.pad_alg_xarrays then 1 else 0)
             else if ros = true then ps.count p
             else (if p ∈ ps ∧ p ∉ st.alg_xarrays then 1 else 0))
           else 0)) ∧
      ((p ∈ (ps.foldl (config_based_product_step ros hv so fam)
          st).pad_alg_xarrays) ↔
        (p ∈ st.pad_alg_xarrays ∨
          (hv p = true ∧ so p = false ∧ p ∈ ps ∧ fam = "xarray_data"))) ∧
      ((p ∈ (ps.foldl (config_based_product_step ros hv so fam)
          st).alg_xarrays) ↔
        (p ∈ st.alg_xarrays ∨
          (hv p = true ∧ so p = false ∧ p ∈ ps ∧ fam ≠ "xarray_data" ∧
            ros = false))) := by
  intro ps
  induction ps with
  | nil => intro st; simp
  | cons q rest ih =>
    intro st
    simp only [List.foldl_cons]
    by_cases hq : q = p
    · subst hq
      by_cases h1 : hv q = true
      · by_cases h2 : so q = false
        · by_cases hfam : fam = "xarray_data"
          · by_cases hpad : q ∈ st.pad_alg_xarrays
            · have hst1 : config_based_product_step ros hv so fam st q = st := by
                unfold config_based_product_step
                simp [h1, h2, hfam, hpad]
              rw [hst1]
              obtain ⟨c2, p2, a2⟩ := ih st
              refine ⟨?_, ?_, ?_⟩
              · rw [c2]; simp [h1, h2, hfam, hpad]
              · rw [p2]; simp [h1, h2, hfam, hpad]
              · rw [a2]; simp [h1, h2, hfam, hpad]
            · have hst1 : config_based_product_step ros hv so fam st q =
                  { st with
                    pad_alg_xarrays := st.pad_alg_xarrays ++ [q]
                    builder_calls := st.builder_calls ++ [q] } := by
                unfold config_based_product_step
                simp [h1, h2, hfam, hpad]
              rw [hst1]
              obtain ⟨c2, p2, a2⟩ :=
                ih { st with
                      pad_alg_xarrays := st.pad_alg_xarrays ++ [q]
                      builder_calls := st.builder_calls ++ [q] }
              refine ⟨?_, ?_, ?_⟩
              · rw [c2]
                simp [h1, h2, hfam, hpad, List.count_append]
              · rw [p2]; simp [h1, h2, hfam, hpad]
              · rw [a2]; simp [h1, h2, hfam, hpad]
          · by_cases hros : ros = true
            · have hst1 : config_based_product_step ros hv so fam st q =
                  { st with
                    builder_calls := st.builder_calls ++ [q] } := by
                unfold config_based_product_step
                simp [h1, h2, hfam, hros]
              rw [hst1]
              obtain ⟨c2, p2, a2⟩ :=
                ih { st with builder_calls := st.builder_calls ++ [q] }
              refine ⟨?_, ?_, ?_⟩
              · rw [c2]
                simp [h1, h2, hfam, hros, List.count_append, List.count_cons]
                omega
              · rw [p2]; simp [h1, h2, hfam, hros]
              · rw [a2]; simp [h1, h2, hfam, hros]
            · by_cases halg : q ∈ st.alg_xarrays
              · have hst1 : config_based_product_step ros hv so fam st q =
                    st := by
                  unfold config_based_product_step
                  simp [h1, h2, hfam, hros, halg]
                rw [hst1]
                obtain ⟨c2, p2, a2⟩ := ih st
                refine ⟨?_, ?_, ?_⟩
                · rw [c2]; simp [h1, h2, hfam, hros, halg]
                · rw [p2]; simp [h1, h2, hfam, hros, halg]
                · rw [a2]; simp [h1, h2, hfam, hros, halg]
              · have hst1 : config_based_product_step ros hv so fam st q =
                    { st with
                      alg_xarrays := st.alg_xarrays ++ [q]
                      builder_calls := st.builder_calls ++ [q] } := by
                  unfold config_based_product_step
                  simp [h1, h2, hfam, hros, halg]
                rw [hst1]
                obtain ⟨c2, p2, a2⟩ :=
                  ih { st with
                        alg_xarrays := st.alg_xarrays ++ [q]
                        builder_calls := st.builder_calls ++ [q] }
                refine ⟨?_, ?_, ?_⟩
                · rw [c2]
                  simp [h1, h2, hfam, hros, halg, List.count_append]
                · rw [p2]; simp [h1, h2, hfam, hros, halg]
                · rw [a2]; simp [h1, h2, hfam, hros, halg]
        · have h2' : so q = true := by simpa using h2
          have hst1 : config_based_product_step ros hv so fam st q = st := by
            unfold config_based_product_step
            simp [h1, h2']
          rw [hst1]
          obtain ⟨c2, p2, a2⟩ := ih st
          refine ⟨?_, ?_, ?_⟩
          · rw [c2]; simp [h2']
          · rw [p2]; simp [h2']
          · rw [a2]; simp [h2']
      · have h1' : hv q = false := by simpa using h1
        have hst1 : config_based_product_step ros hv so fam st q = st := by
          unfold config_based_product_step
          simp [h1']
        rw [hst1]
        obtain ⟨c2, p2, a2⟩ := ih st
        refine ⟨?_, ?_, ?_⟩
        · rw [c2]; simp [h1']
        · rw [p2]; simp [h1']
        · rw [a2]; simp [h1']
    · obtain ⟨cs, psm, asm⟩ :=
        config_based_product_step_other ros hv so fam p q st hq
      obtain ⟨c2, p2, a2⟩ := ih (config_based_product_step ros hv so fam st q)
      refine ⟨?_, ?_, ?_⟩
      · rw [c2, cs]
        simp [psm, asm, hq, Ne.symm hq, List.count_cons]
      · rw [p2, psm]
        simp [Ne.symm hq]
      · rw [a2, asm]
        simp [Ne.symm hq]

/-- Filtering a list down to the occurrences of `p` measures its count. -/
theorem length_filter_eq_count (l : List String) (p : String) :
    (l.filter (fun q => q = p)).length = l.count p := by
  induction l with
  | nil => rfl
  | cons q rest ih => by_cases h : q = p <;> simp [h, ih, List.count_cons]

/-- Membership in one output's contribution to the request-family multiset. -/
theorem mem_request_families_one (o : OutputSpec) (p f : String) :
    (f ∈ (if o.produce_time_ok then
        (o.product_names.filter (fun q => q = p)).map
          (fun _ => o.output_family)
      else [])) ↔
    (o.produce_time_ok = true ∧ p ∈ o.product_names ∧
      f = o.output_family) := by
  by_cases hp : o.produce_time_ok = true <;>
    simp [hp, List.mem_map, List.mem_filter]

/-- The non-`xarray_data` share of one output's request contribution. -/
theorem length_filter_request_families_one (o : OutputSpec) (p : String) :
    ((if o.produce_time_ok then
        (o.product_names.filter (fun q => q = p)).map
          (fun _ => o.output_family)
      else []).filter (fun f => f ≠ "xarray_data")).length =
    (if o.produce_time_ok = true ∧ o.output_family ≠ "xarray_data" then
      o.product_names.count p
    else 0) := by
  by_cases hp : o.produce_time_ok = true
  · by_cases hf : o.output_family = "xarray_data"
    · simp [hp, hf, List.filter_map, Function.comp]
    · simp [hp, hf, List.filter_map, Function.comp, length_filter_eq_count]
  · simp [hp]

set_option maxHeartbeats 3200000 in
/-- Output-loop fold: builder-call count and cache membership for product `p`
across a list of required outputs, expressed through the request-family
multiset. For `xarray_data` requests one call is paid on the first fresh
`pad_alg_xarrays` insertion; non-`xarray_data` requests pay one call each for
reader_defined/self_register sector types, else one call on the first fresh
`alg_xarrays` insertion. -/
theorem config_based_output_fold_stats (ros : Bool) (hv so : String → Bool)
    (p : String) :
    ∀ (outs : List OutputSpec) (st : AlgCacheState),
      (((outs.foldl (config_based_output_step ros hv so)
          st).builder_calls.count p =
        st.builder_calls.count p +
          (if hv p = true ∧ so p = false then
            (if "xarray_data" ∈ request_families_of outs p ∧
                p ∉ st.pad_alg_xarrays then 1 else 0) +
            (if ros = true then
              ((request_families_of outs p).filter
                (fun f => f ≠ "xarray_data")).length
             else if ((request_families_of outs p).filter
                  (fun f => f ≠ "xarray_data")).length ≠ 0 ∧
                p ∉ st.alg_xarrays then 1
             else 0)
           else 0))) ∧
      ((p ∈ (outs.foldl (config_based_output_step ros hv so)
          st).pad_alg_xarrays) ↔
        (p ∈ st.pad_alg_xarrays ∨
          (hv p = true ∧ so p = false ∧
            "xarray_data" ∈ request_families_of outs p))) ∧
      ((p ∈ (outs.foldl (config_based_output_step ros hv so)
          st).alg_xarrays) ↔
        (p ∈ st.alg_xarrays ∨
          (hv p = true ∧ so p = false ∧ ros = false ∧
            ((request_families_of outs p).filter
              (fun f => f ≠ "xarray_data")).length ≠ 0))) := by
  intro outs
  induction outs with
  | nil => intro st; simp [request_families_of]
  | cons o rest ih =>
    intro st
    have hfams : request_families_of (o :: rest) p =
        (if o.produce_time_ok then
          (o.product_names.filter (fun q => q = p)).map
            (fun _ => o.output_family)
         else []) ++ request_families_of rest p := by
      simp [request_families_of]
    simp only [List.foldl_cons]
    by_cases hpto : o.produce_time_ok = true
    · have hst1 : config_based_output_step ros hv so st o =
          o.product_names.foldl
            (config_based_product_step ros hv so o.output_family) st := by
        unfold config_based_output_step
        simp [hpto]
      rw [hst1]
      have pstats :=
        config_based_product_fold_stats ros hv so o.output_family p
          o.product_names st
      generalize hgen :
        (o.product_names.foldl
          (config_based_product_step ros hv so o.output_family) st) = st1 at pstats ⊢
      obtain ⟨pc, pp, pa⟩ := pstats
      obtain ⟨rc, rp, ra⟩ := ih st1
      by_cases hel : hv p = true ∧ so p = false
      · obtain ⟨h1, h2⟩ := hel
        have hxdeq : ("xarray_data" = o.output_family) =
            (o.output_family = "xarray_data") := propext ⟨Eq.symm, Eq.symm⟩
        refine ⟨?_, ?_, ?_⟩
        · rw [rc, pc, hfams]
          simp only [pp, pa]
          clear rc pc rp ra pp pa hst1 ih
          by_cases hfam : o.output_family = "xarray_data" <;>
          by_cases hcnt : o.product_names.count p = 0 <;>
          by_cases hpadst : p ∈ st.pad_alg_xarrays <;>
          by_cases halgst : p ∈ st.alg_xarrays <;>
          by_cases hros : ros = true <;>
          by_cases hrx : "xarray_data" ∈ request_families_of rest p <;>
          by_cases hrl : ((request_families_of rest p).filter
              (fun f => f ≠ "xarray_data")).length = 0 <;>
            simp_all [mem_request_families_one,
              length_filter_request_families_one, List.filter_append,
              List.count_eq_zero, length_filter_eq_count, List.filter_map,
              Function.comp, hxdeq] <;>
            omega
        · rw [rp]
          simp only [pp]
          clear rc pc rp ra pp pa hst1 ih
          rw [hfams]
          by_cases hfam : o.output_family = "xarray_data" <;>
          by_cases hcnt : o.product_names.count p = 0 <;>
            simp_all [mem_request_families_one, List.count_eq_zero,
              List.mem_append, hxdeq]
        · rw [ra]
          simp only [pa]
          clear rc pc rp ra pp pa hst1 ih
          rw [hfams]
          by_cases hfam : o.output_family = "xarray_data" <;>
          by_cases hcnt : o.product_names.count p = 0 <;>
          by_cases hros : ros = true <;>
          by_cases hrl : ((request_families_of rest p).filter
              (fun f => f ≠ "xarray_data")).length = 0 <;>
            simp_all [length_filter_request_families_one, List.filter_append,
              List.count_eq_zero, length_filter_eq_count, List.filter_map,
              Function.comp, hxdeq]
      · have hel0 : ¬ (hv p = true ∧ so p = false) := hel
        refine ⟨?_, ?_, ?_⟩
        · rw [rc, pc]
          simp [hel0]
        · rw [rp, pp]
          tauto
        · rw [ra, pa]
          tauto
    · have hpto0 : o.produce_time_ok = false := by simpa using hpto
      have hst1 : config_based_output_step ros hv so st o = st := by
        unfold config_based_output_step
        simp [hpto0]
      rw [hst1, hfams]
      obtain ⟨rc, rp, ra⟩ := ih st
      refine ⟨?_, ?_, ?_⟩
      · rw [rc]; simp [hpto0]
      · rw [rp]; simp [hpto0]
      · rw [ra]; simp [hpto0]

/-- A product-loop step inserts into each cache only when the key is fresh,
so cache key lists stay duplicate-free. -/
theorem config_based_product_step_nodup (ros : Bool) (hv so : String → Bool)
    (fam q : String) (st : AlgCacheState)
    (hpad : st.pad_alg_xarrays.Nodup) (halg : st.alg_xarrays.Nodup) :
    (config_based_product_step ros hv so fam st q).pad_alg_xarrays.Nodup ∧
    (config_based_product_step ros hv so fam st q).alg_xarrays.Nodup := by
  unfold config_based_product_step
  split_ifs <;> simp_all [List.nodup_append]

/-- Duplicate-freedom of both caches is preserved by the product loop. -/
theorem config_based_product_fold_nodup (ros : Bool) (hv so : String → Bool)
    (fam : String) :
    ∀ (ps : List String) (st : AlgCacheState),
      st.pad_alg_xarrays.Nodup → st.alg_xarrays.Nodup →
      (ps.foldl (config_based_product_step ros hv so fam)
          st).pad_alg_xarrays.Nodup ∧
      (ps.foldl (config_based_product_step ros hv so fam)
          st).alg_xarrays.Nodup := by
  intro ps
  induction ps with
  | nil => intro st hpad halg; exact ⟨hpad, halg⟩
  | cons q rest ih =>
    intro st hpad halg
    obtain ⟨h1, h2⟩ :=
      config_based_product_step_nodup ros hv so fam q st hpad halg
    simpa using ih (config_based_product_step ros hv so fam st q) h1 h2

/-- Duplicate-freedom of both caches is preserved by the output loop. -/
theorem config_based_output_fold_nodup (ros : Bool) (hv so : String → Bool) :
    ∀ (outs : List OutputSpec) (st : AlgCacheState),
      st.pad_alg_xarrays.Nodup → st.alg_xarrays.Nodup →
      (outs.foldl (config_based_output_step ros hv so)
          st).pad_alg_xarrays.Nodup ∧
      (outs.foldl (config_based_output_step ros hv so)
          st).alg_xarrays.Nodup := by
  intro outs
  induction outs with
  | nil => intro st hpad halg; exact ⟨hpad, halg⟩
  | cons o rest ih =>
    intro st hpad halg
    have hstep : (config_based_output_step ros hv so st o).pad_alg_xarrays.Nodup ∧
        (config_based_output_step ros hv so st o).alg_xarrays.Nodup := by
      unfold config_based_output_step
      split_ifs
      · exact config_based_product_fold_nodup ros hv so o.output_family
          o.product_names st hpad halg
      · exact ⟨hpad, halg⟩
    simpa using ih (config_based_output_step ros hv so st o) hstep.1 hstep.2

/-- Claim C3, amended: within one (area definition, sector type) iteration of
the config-based orchestrator, `get_alg_xarray` is invoked exactly
`expected_builder_calls` many times for a product — one invocation covering
all of its `xarray_data` requests (memoized in `pad_alg_xarrays`), and, for
non-`xarray_data` requests, one invocation covering all of them (memoized in
`alg_xarrays`) on ordinary sector types but one invocation PER request on
reader_defined/self_register sector types, which bypass the cache; each cache
holds at most one entry per product name. -/
theorem claim_C3_amended_builder_memoization (ros : Bool)
    (hv so : String → Bool) (outputs : List OutputSpec)
    (sector_type p : String) :
    ((config_based_sector_type_run ros hv so outputs
        sector_type).builder_calls.count p =
      expected_builder_calls ros hv so outputs sector_type p) ∧
    (config_based_sector_type_run ros hv so outputs
        sector_type).pad_alg_xarrays.Nodup ∧
    (config_based_sector_type_run ros hv so outputs
        sector_type).alg_xarrays.Nodup := by
  refine ⟨?_, ?_, ?_⟩
  · have h := (config_based_output_fold_stats ros hv so p
      (get_required_outputs outputs sector_type)
      { pad_alg_xarrays := [], alg_xarrays := [], builder_calls := [] }).1
    unfold config_based_sector_type_run
    rw [h]
    simp [expected_builder_calls, request_families, Bool.not_eq_true]
  · exact (config_based_output_fold_nodup ros hv so
      (get_required_outputs outputs sector_type)
      { pad_alg_xarrays := [], alg_xarrays := [], builder_calls := [] }
      List.nodup_nil List.nodup_nil).1
  · exact (config_based_output_fold_nodup ros hv so
      (get_required_outputs outputs sector_type)
      { pad_alg_xarrays := [], alg_xarrays := [], builder_calls := [] }
      List.nodup_nil List.nodup_nil).2

/-- Counterexample to claim C3 as stated: with a reader_defined/self_register
sector type, two output types requesting the same product invoke the builder
twice (no memoization on that path); and on an ordinary sector type a product
requested by both an `xarray_data` output and an image output is computed
once per cache — also twice — contradicting "invoked exactly once for that
(area, sector-type, product) triple". -/
theorem claim_C3_counterexample_two_invocations :
    ((config_based_sector_type_run true (fun _ => true) (fun _ => false)
        [{ requested_sector_type := "tc1km", produce_time_ok := true,
           output_family := "imagery_annotated",
           product_names := ["Infrared"] },
         { requested_sector_type := "tc1km", produce_time_ok := true,
           output_family := "imagery_clean",
           product_names := ["Infrared"] }]
        "tc1km").builder_calls.count "Infrared" = 2) ∧
    ((config_based_sector_type_run false (fun _ => true) (fun _ => false)
        [{ requested_sector_type := "tc1km", produce_time_ok := true,
           output_family := "xarray_data",
           product_names := ["Infrared"] },
         { requested_sector_type := "tc1km", produce_time_ok := true,
           output_family := "imagery_annotated",
           product_names := ["Infrared"] }]
        "tc1km").builder_calls.count "Infrared" = 2) := by
  exact ⟨rfl, rfl⟩

end GeoipsProcflow
